import Mathlib

/-!
Verification of the SWIFT ingestion core (osint-swift repository):
job state machine, orchestration loop, connector registry, and the
content-addressed evidence object store. Definitions are shallow
embeddings of the Python sources under `swift-ingestion/src`.
-/

namespace Swift

/-- Status enumeration `JobStatus` from `models.py`. The PARTIAL member is named
`partly` here because its source name is a reserved word in Lean. -/
inductive JobStatus where
  | pending
  | running
  | success
  | failed
  | partly
  | cancelled
deriving DecidableEq, Repr

/-- Source enumeration `SourceType` from `models.py`. -/
inductive SourceType where
  | opencorporates
  | news_api
  | osint_search
  | rss_feed
  | web_scraper
  | manual_upload
deriving DecidableEq, Repr

/-- The persisted fields of an ingestion job row that the core mutates
(`IngestionJobDB` in `db/models.py`): source type, status, the two
lifecycle timestamps, the three item counters and the error fields.
Timestamps are abstract clock readings (`Nat`); `errorDetails` holds the
exception description string stored in the structured detail map. -/
structure Job where
  source_type : SourceType
  status : JobStatus
  startedAt : Option Nat
  completedAt : Option Nat
  totalItems : Nat
  successfulItems : Nat
  failedItems : Nat
  errorMessage : Option String
  errorDetails : Option String
deriving DecidableEq, Repr

/-- Python truthiness of an `Optional[str]`: `None` and the empty string
are falsy, every other string is truthy. -/
def optStrTruthy : Option String → Bool
  | none => false
  | some s => !(s == "")

/-- Embedding of `JobRepository.update_job_status` (`storage/repository.py`, lines
55-86), acting on a job row that exists.  Sets the status
unconditionally; stamps `started_at` when the new status is RUNNING and
`started_at` was unset; stamps `completed_at` when the new status is one
of SUCCESS, FAILED, PARTIAL (the source list omits CANCELLED); stores the
error message and details when a truthy error message is supplied.
`now` stands for `datetime.utcnow()`. -/
def update_job_status (job : Job) (status : JobStatus) (now : Nat)
    (errorMessage : Option String) (errorDetails : Option String) : Job :=
  let job := { job with status := status }
  let job :=
    if status = JobStatus.running ∧ job.startedAt = none then
      { job with startedAt := some now }
    else job
  let job :=
    if status = JobStatus.success ∨ status = JobStatus.failed ∨
        status = JobStatus.partly then
      { job with completedAt := some now }
    else job
  if optStrTruthy errorMessage then
    { job with errorMessage := errorMessage, errorDetails := errorDetails }
  else job

/-- Embedding of `JobRepository.update_job_counts` (`storage/repository.py`, lines
88-103): overwrite the three persisted counters. -/
def update_job_counts (job : Job) (total successful failed : Nat) : Job :=
  { job with totalItems := total, successfulItems := successful,
             failedItems := failed }

/-- The statuses the source and spec regard as terminal. -/
def JobStatus.isTerminal : JobStatus → Bool
  | JobStatus.success => true
  | JobStatus.failed => true
  | JobStatus.partly => true
  | JobStatus.cancelled => true
  | _ => false

/-- A value stored in a connector configuration dictionary. -/
inductive ConfigVal where
  | int (n : Int)
  | str (s : String)
deriving DecidableEq, Repr

/-- A connector configuration: a Python dict from string keys to values,
embedded as an association list where the most recent assignment wins. -/
def Config := List (String × ConfigVal)

instance : DecidableEq Config := by
  unfold Config
  infer_instance

/-- Dictionary lookup `config.get(key)`: the value at `key`, or `none` when absent. -/
def Config.get? (c : Config) (key : String) : Option ConfigVal :=
  c.lookup key

/-- Dictionary assignment `config[key] = v` (shadows earlier bindings). -/
def Config.set (c : Config) (key : String) (v : ConfigVal) : Config :=
  (key, v) :: c

/-- Python truthiness of an `Optional` configuration value: `None`, the
empty string and the integer `0` are falsy. -/
def cvTruthy : Option ConfigVal → Bool
  | none => false
  | some (ConfigVal.int n) => !(n == 0)
  | some (ConfigVal.str s) => !(s == "")

/-- Embedding of `BaseConnector.get_rate_limit` (`connectors/base.py`, lines 85-92):
`self.config.get('rate_limit_per_minute')` — the configured value, or
`none` ("unlimited") when the key is unset.  No default is applied. -/
def get_rate_limit (config : Config) : Option ConfigVal :=
  config.get? "rate_limit_per_minute"

/-- Embedding of `BaseConnector.get_timeout` (`connectors/base.py`, lines 94-101):
`self.config.get('timeout_seconds', 30)` — the configured value, or the
integer 30 when the key is unset. -/
def get_timeout (config : Config) : ConfigVal :=
  (config.get? "timeout_seconds").getD (ConfigVal.int 30)

/-- The environment-derived settings that `_get_connector_config` reads
(`config.py` fields `opencorporates_api_key` and `news_api_key`). -/
structure Settings where
  opencorporates_api_key : Option String
  news_api_key : Option String
deriving DecidableEq, Repr

/-- Embedding of `IngestionService._get_connector_config` (`services/ingestion.py`,
lines 249-279): builds the base config with `rate_limit_per_minute = 60`
and `timeout_seconds = 30`, raises `ValueError` when a required API key
is missing (falsy), adds the key otherwise, and for NEWS_API overrides
the rate limit to 6. -/
def get_connector_config (s : Settings) (source_type : SourceType) :
    Except String Config :=
  let config : Config :=
    [("rate_limit_per_minute", ConfigVal.int 60),
     ("timeout_seconds", ConfigVal.int 30)]
  match source_type with
  | SourceType.opencorporates =>
    if optStrTruthy s.opencorporates_api_key then
      Except.ok (config.set "api_key"
        (ConfigVal.str (s.opencorporates_api_key.getD "")))
    else
      Except.error "OpenCorporates API key not configured"
  | SourceType.news_api =>
    if optStrTruthy s.news_api_key then
      Except.ok ((config.set "api_key"
        (ConfigVal.str (s.news_api_key.getD ""))).set
        "rate_limit_per_minute" (ConfigVal.int 6))
    else
      Except.error
        "News API key not configured. Get one free at https://newsapi.org/register"
  | _ => Except.ok config

/-- A constructed connector instance: its source-type tag together with
the configuration handed to `__init__` (each connector stores `config`
and reads its own keys from it). -/
structure Connector where
  source_type : SourceType
  config : Config
deriving DecidableEq

/-- The default actor id `OsintSearchConnector.DEFAULT_ACTOR_ID`. -/
def DEFAULT_ACTOR_ID : String := "mqNu8WBvuKXgZRt4M"

/-- The `validate_config` methods of the three registered connector classes
(`connectors/opencorporates.py` lines 39-43, `connectors/newsapi.py`
lines 45-49, `connectors/osint_search.py` lines 47-52): raise
`ValueError` when a required credential is falsy, return `True`
otherwise.  The OSINT connector reads `api_token` and an `actor_id`
defaulting to `DEFAULT_ACTOR_ID`.  Unregistered source types have no
connector class; their branch is unreachable from `get_connector`. -/
def Connector.validate_config (c : Connector) : Except String Bool :=
  match c.source_type with
  | SourceType.opencorporates =>
    if cvTruthy (c.config.get? "api_key") then Except.ok true
    else Except.error "OpenCorporates API key is required"
  | SourceType.news_api =>
    if cvTruthy (c.config.get? "api_key") then Except.ok true
    else Except.error
      "News API key is required. Get one free at https://newsapi.org/register"
  | SourceType.osint_search =>
    if cvTruthy (c.config.get? "api_token") then
      if cvTruthy (some ((c.config.get? "actor_id").getD
          (ConfigVal.str DEFAULT_ACTOR_ID))) then Except.ok true
      else Except.error "OSINT search actor_id is required"
    else Except.error "OSINT search API token is required"
  | _ => Except.ok true

/-- The connector types registered at import time
(`connectors/registry.py`, lines 67-70). -/
def registeredSourceTypes : List SourceType :=
  [SourceType.opencorporates, SourceType.news_api, SourceType.osint_search]

/-- Embedding of `ConnectorRegistry.get_connector` (`connectors/registry.py`, lines
29-59): raise `ValueError` when no connector class is registered for the
source type; otherwise construct the connector and run its
`validate_config` (whose `ValueError` propagates), returning the
instance only when validation passed. -/
def get_connector (source_type : SourceType) (config : Config) :
    Except String Connector :=
  if source_type ∈ registeredSourceTypes then
    let connector : Connector := ⟨source_type, config⟩
    match connector.validate_config with
    | Except.error e => Except.error e
    | Except.ok _ => Except.ok connector
  else
    Except.error "No connector registered for source type"

/-- How the connector's result stream ends: normal exhaustion of the
generator, or an exception raised by the connector itself while
iterating (e.g. a `FetchError` after bounded retries), carrying its
description. -/
inductive StreamEnd where
  | exhausted
  | raised (msg : String)
deriving DecidableEq, Repr

/-- The body of the fetch loop in `IngestionService.execute_job`
(`services/ingestion.py`, lines 109-141).  Each element of `events` is
the outcome of `_store_evidence` for one item yielded by the connector:
`Except.ok` when the object-store write and evidence-record creation
succeeded, `Except.error` when they raised.  The loop increments `total`
for every item and then, inside the per-item `try`/`except`, increments
`successful` on success or `failed` on a caught exception, and moves on
to the next item. -/
def runLoop (events : List (Except String Unit)) : Nat × Nat × Nat :=
  events.foldl
    (fun acc ev =>
      let total := acc.1 + 1
      match ev with
      | Except.ok _ => (total, acc.2.1 + 1, acc.2.2)
      | Except.error _ => (total, acc.2.1, acc.2.2 + 1))
    (0, 0, 0)

/-- Embedding of `IngestionService.execute_job` (`services/ingestion.py`, lines
73-188) for a job that exists, starting from its persisted row `job`.
The external world is summarized by `settings` (environment
configuration), `events` (the per-item persistence outcomes for the
items the connector yields before the stream ends) and `theEnd` (how the
stream ends).  Control flow mirrors the source: set RUNNING; resolve the
connector configuration (may raise); obtain the connector from the
registry (may raise); run the fetch loop; on a connector-raised
exception no counters are persisted; on normal completion persist the
counters, compute the final status from `failed`/`successful`, and
persist it; every escaping exception is caught by the outer handler,
which persists FAILED with the message
`"Job execution failed: " ++ description` and the structured detail. -/
def execute_job (settings : Settings) (job : Job)
    (events : List (Except String Unit)) (theEnd : StreamEnd) (now : Nat) :
    Job :=
  let job1 := update_job_status job JobStatus.running now none none
  let failWith := fun (e : String) =>
    update_job_status job1 JobStatus.failed now
      (some ("Job execution failed: " ++ e)) (some e)
  match get_connector_config settings job.source_type with
  | Except.error e => failWith e
  | Except.ok connector_config =>
    match get_connector job.source_type connector_config with
    | Except.error e => failWith e
    | Except.ok _connector =>
      match theEnd with
      | StreamEnd.raised e => failWith e
      | StreamEnd.exhausted =>
        let counts := runLoop events
        let job2 := update_job_counts job1 counts.1 counts.2.1 counts.2.2
        let final_status :=
          if counts.2.2 = 0 then JobStatus.success
          else if counts.2.1 > 0 then JobStatus.partly
          else JobStatus.failed
        update_job_status job2 final_status now none none

/-! Section: SHA-256, as used by `hashlib.sha256(content).hexdigest()`

A byte-level embedding of FIPS 180-4 SHA-256 as used by
`ObjectStorage.store_evidence` and `ObjectStorage.verify_checksum`
(`storage/object_store.py`).  Bytes and 32-bit words are `Nat`s reduced
modulo `2 ^ 32` where overflow matters. -/

/-- Addition modulo `2 ^ 32`. -/
def add32 (a b : Nat) : Nat := (a + b) % 4294967296

/-- Rotation of a 32-bit word rightwards by `n`, phrased with division
and remainder so it needs no masking for `x < 2 ^ 32`. -/
def rotr32 (n x : Nat) : Nat := x / 2 ^ n + x % 2 ^ n * 2 ^ (32 - n)

/-- Logical right shift of a 32-bit word. -/
def shr32 (n x : Nat) : Nat := x / 2 ^ n

/-- Function `Σ0` of SHA-256. -/
def bsig0 (x : Nat) : Nat := rotr32 2 x ^^^ rotr32 13 x ^^^ rotr32 22 x

/-- Function `Σ1` of SHA-256. -/
def bsig1 (x : Nat) : Nat := rotr32 6 x ^^^ rotr32 11 x ^^^ rotr32 25 x

/-- Function `σ0` of SHA-256. -/
def ssig0 (x : Nat) : Nat := rotr32 7 x ^^^ rotr32 18 x ^^^ shr32 3 x

/-- Function `σ1` of SHA-256. -/
def ssig1 (x : Nat) : Nat := rotr32 17 x ^^^ rotr32 19 x ^^^ shr32 10 x

/-- Choice function `Ch(x, y, z)`; complement taken against the 32-bit mask. -/
def chf (x y z : Nat) : Nat := (x &&& y) ^^^ ((x ^^^ 4294967295) &&& z)

/-- Majority function `Maj(x, y, z)`. -/
def majf (x y z : Nat) : Nat := (x &&& y) ^^^ (x &&& z) ^^^ (y &&& z)

/-- The 64 round constants of SHA-256 (FIPS 180-4 section 4.2.2),
written in decimal. -/
def K256 : List Nat :=
  [1116352408, 1899447441, 3049323471, 3921009573,
   961987163, 1508970993, 2453635748, 2870763221,
   3624381080, 310598401, 607225278, 1426881987,
   1925078388, 2162078206, 2614888103, 3248222580,
   3835390401, 4022224774, 264347078, 604807628,
   770255983, 1249150122, 1555081692, 1996064986,
   2554220882, 2821834349, 2952996808, 3210313671,
   3336571891, 3584528711, 113926993, 338241895,
   666307205, 773529912, 1294757372, 1396182291,
   1695183700, 1986661051, 2177026350, 2456956037,
   2730485921, 2820302411, 3259730800, 3345764771,
   3516065817, 3600352804, 4094571909, 275423344,
   430227734, 506948616, 659060556, 883997877,
   958139571, 1322822218, 1537002063, 1747873779,
   1955562222, 2024104815, 2227730452, 2361852424,
   2428436474, 2756734187, 3204031479, 3329325298]

/-- The eight working variables of the compression function. -/
structure Hash8 where
  a : Nat
  b : Nat
  c : Nat
  d : Nat
  e : Nat
  f : Nat
  g : Nat
  h : Nat
deriving DecidableEq, Repr

/-- The SHA-256 initial hash value (FIPS 180-4 section 5.3.3), written
in decimal. -/
def initH : Hash8 :=
  ⟨1779033703, 3144134277, 1013904242, 2773480762,
   1359893119, 2600822924, 528734635, 1541459225⟩

/-- The 8-byte big-endian encoding of the message bit length. -/
def lenBytesBE (n : Nat) : List Nat :=
  [n / 2 ^ 56 % 256, n / 2 ^ 48 % 256, n / 2 ^ 40 % 256, n / 2 ^ 32 % 256,
   n / 2 ^ 24 % 256, n / 2 ^ 16 % 256, n / 2 ^ 8 % 256, n % 256]

/-- SHA-256 padding: append `0x80`, then zeros up to 56 mod 64 bytes,
then the 64-bit big-endian bit length. -/
def padMessage (msg : List Nat) : List Nat :=
  let padZeros := (119 - msg.length % 64) % 64
  msg ++ 128 :: (List.replicate padZeros 0 ++ lenBytesBE (msg.length * 8))

/-- Group a byte list into big-endian 32-bit words. -/
def bytesToWords : List Nat → List Nat
  | a :: b :: c :: d :: rest =>
    (((a * 256 + b) * 256 + c) * 256 + d) :: bytesToWords rest
  | _ => []

/-- One extension step of the message schedule: append `W[t]` computed
from `W[t-2]`, `W[t-7]`, `W[t-15]`, `W[t-16]`. -/
def scheduleStep (w : List Nat) : List Nat :=
  let n := w.length
  w ++ [(ssig1 (w.getD (n - 2) 0) + w.getD (n - 7) 0 +
         ssig0 (w.getD (n - 15) 0) + w.getD (n - 16) 0) % 4294967296]

/-- Extend the 16 block words to the 64 schedule words. -/
def messageSchedule (w : List Nat) : List Nat :=
  (List.range 48).foldl (fun acc _ => scheduleStep acc) w

/-- One round of the compression function, consuming `(K[t], W[t])`. -/
def compressStep (st : Hash8) (kw : Nat × Nat) : Hash8 :=
  let t1 := (st.h + bsig1 st.e + chf st.e st.f st.g + kw.1 + kw.2) %
    4294967296
  let t2 := (bsig0 st.a + majf st.a st.b st.c) % 4294967296
  ⟨(t1 + t2) % 4294967296, st.a, st.b, st.c,
   (st.d + t1) % 4294967296, st.e, st.f, st.g⟩

/-- Compress one 64-byte block into the running hash value. -/
def compressBlock (h : Hash8) (block : List Nat) : Hash8 :=
  let w := messageSchedule (bytesToWords block)
  let s := (K256.zip w).foldl compressStep h
  ⟨add32 h.a s.a, add32 h.b s.b, add32 h.c s.c, add32 h.d s.d,
   add32 h.e s.e, add32 h.f s.f, add32 h.g s.g, add32 h.h s.h⟩

/-- Split a byte list into successive 64-byte blocks; `fuel` is a
structural bound on the number of blocks (any `fuel ≥ l.length`
suffices, since each block consumes at least one byte). -/
def chunksGo : Nat → List Nat → List (List Nat)
  | _, [] => []
  | 0, _ :: _ => []
  | fuel + 1, x :: rest =>
    ((x :: rest).take 64) :: chunksGo fuel ((x :: rest).drop 64)

/-- Split a (padded) byte list into 64-byte blocks. -/
def chunks64 (l : List Nat) : List (List Nat) := chunksGo l.length l

/-- The 4-byte big-endian encoding of a 32-bit word. -/
def wordToBytesBE (w : Nat) : List Nat :=
  [w / 2 ^ 24 % 256, w / 2 ^ 16 % 256, w / 2 ^ 8 % 256, w % 256]

/-- SHA-256 digest (32 bytes) of a byte list. -/
def sha256 (msg : List Nat) : List Nat :=
  let fin := (chunks64 (padMessage msg)).foldl compressBlock initH
  wordToBytesBE fin.a ++ wordToBytesBE fin.b ++ wordToBytesBE fin.c ++
  wordToBytesBE fin.d ++ wordToBytesBE fin.e ++ wordToBytesBE fin.f ++
  wordToBytesBE fin.g ++ wordToBytesBE fin.h

/-- The sixteen lowercase hexadecimal digit characters, `0`-`9` followed
by `a`-`f`, built from their code points. -/
def hexTable : List Char :=
  ((List.range 10).map fun i => Char.ofNat (48 + i)) ++
    ((List.range 6).map fun i => Char.ofNat (97 + i))

/-- The lowercase hexadecimal digit of a nibble. -/
def hexDigit (n : Nat) : Char := hexTable.getD (n % 16) '0'

/-- The two lowercase hexadecimal characters of a byte (`%02x`). -/
def byteToHex (b : Nat) : List Char := [hexDigit (b / 16), hexDigit (b % 16)]

/-- Embedding of `hashlib.sha256(content).hexdigest()`: the lowercase-hex SHA-256
digest string of a byte list. -/
def sha256hex (msg : List Nat) : String :=
  ⟨((sha256 msg).map byteToHex).flatten⟩

/-! Section: object store (`storage/object_store.py`) -/

/-- The S3 bucket contents visible through `put_object` / `get_object`:
an association list from object key to stored bytes in which the most
recent write wins (a later `put_object` to the same key overwrites). -/
def ObjectStore := List (String × List Nat)

instance : DecidableEq ObjectStore := by
  unfold ObjectStore
  infer_instance

/-- Operation `get_object`: the bytes currently stored at `key`, `none` when the
key does not exist (a `ClientError` in the source). -/
def ObjectStore.getObject (st : ObjectStore) (key : String) :
    Option (List Nat) :=
  st.lookup key

/-- Operation `put_object`: store `content` at `key`, overwriting. -/
def ObjectStore.putObject (st : ObjectStore) (key : String)
    (content : List Nat) : ObjectStore :=
  (key, content) :: st

/-- Embedding of `ObjectStorage.store_evidence` (`storage/object_store.py`, lines
73-125): compute `checksum = sha256(content).hexdigest()` and
`file_size = len(content)`, write the blob under `object_key`, and
return `(checksum, file_size)` together with the updated store. -/
def store_evidence (st : ObjectStore) (object_key : String)
    (content : List Nat) : ObjectStore × String × Nat :=
  let checksum := sha256hex content
  let file_size := content.length
  (st.putObject object_key content, checksum, file_size)

/-- Embedding of `ObjectStorage.verify_checksum` (`storage/object_store.py`, lines
175-206): retrieve the bytes at `object_key`, recompute their SHA-256
hexdigest and compare with `expected_checksum`; a retrieval failure is
caught and reported as `false`. -/
def verify_checksum (st : ObjectStore) (object_key : String)
    (expected_checksum : String) : Bool :=
  match st.getObject object_key with
  | some content => sha256hex content == expected_checksum
  | none => false

/-! Section: object keys (`ObjectStorage.generate_object_key`) -/

/-- The ten decimal digit characters, built from their code points. -/
def digitTable : List Char :=
  (List.range 10).map fun i => Char.ofNat (48 + i)

/-- The decimal digit character of a value below ten. -/
def digitChar (d : Nat) : Char := digitTable.getD (d % 10) '0'

/-- The numeric value of a decimal digit character. -/
def charVal (c : Char) : Nat := c.toNat - 48

/-- The decimal representation of a natural number (Python `str(n)` /
`strftime("%Y")`). -/
def natToChars (n : Nat) : List Char :=
  if n = 0 then ['0'] else ((Nat.digits 10 n).reverse).map digitChar

/-- Zero-padded two-digit decimal representation (`strftime` `%m`/`%d`).
-/
def pad2 (n : Nat) : List Char :=
  if n < 10 then '0' :: natToChars n else natToChars n

/-- Embedding of `ObjectStorage.generate_object_key` (`storage/object_store.py`,
lines 58-71):
`f"evidence/{source_type}/{date_part}/{job_id}/{evidence_id}.{extension}"`
with `date_part = datetime.utcnow().strftime("%Y/%m/%d")`.  The current
UTC date is passed in as `(y, m, d)`. -/
def generate_object_key (source_type : String) (y m d : Nat)
    (job_id evidence_id extension : String) : String :=
  ⟨"evidence".data ++ '/' :: (source_type.data ++ '/' :: (natToChars y ++
    '/' :: (pad2 m ++ '/' :: (pad2 d ++ '/' :: (job_id.data ++
    '/' :: (evidence_id.data ++ '.' :: extension.data))))))⟩

/-- Split a character list at every occurrence of `sep` (Python
`str.split(sep)`): always returns at least one (possibly empty) field.
-/
def splitOnChar (sep : Char) : List Char → List (List Char)
  | [] => [[]]
  | c :: rest =>
    let r := splitOnChar sep rest
    if c = sep then [] :: r
    else
      match r with
      | [] => [[c]]
      | hd :: tl => (c :: hd) :: tl

/-- The decimal value of a digit string. -/
def parseNatChars (cs : List Char) : Nat :=
  Nat.ofDigits 10 ((cs.map charVal).reverse)

/-- Parse an object key of the documented format back into its
components `(source_type, (year, month, day), job_id, evidence_id,
extension)`: split on `/` into exactly seven fields headed by
`evidence`, then split the final field on `.` into the evidence id and
the extension. -/
def parse_object_key (key : String) :
    Option (String × (Nat × Nat × Nat) × String × String × String) :=
  match splitOnChar '/' key.data with
  | [ev, st, ys, ms, ds, job, file] =>
    if ev = "evidence".data then
      match splitOnChar '.' file with
      | [eid, ext] =>
        some (⟨st⟩, (parseNatChars ys, parseNatChars ms, parseNatChars ds),
          ⟨job⟩, ⟨eid⟩, ⟨ext⟩)
      | _ => none
    else none
  | _ => none

/-! Section: specification-side helpers used to state the claims -/

/-- Whether a per-item persistence outcome is a success. -/
def isOkEv : Except String Unit → Bool
  | Except.ok _ => true
  | Except.error _ => false

/-- The number of items in the stream whose persistence succeeds. -/
def countOk (events : List (Except String Unit)) : Nat :=
  events.countP isOkEv

/-- The number of items in the stream whose persistence fails. -/
def countErr (events : List (Except String Unit)) : Nat :=
  events.countP (fun ev => !isOkEv ev)

/-- The three ways an exception described by `e` escapes the body of
`execute_job` after the transition to RUNNING: missing configuration,
unregistered or invalid connector, or a connector-raised error while
iterating the stream. -/
def execRaises (settings : Settings) (job : Job) (theEnd : StreamEnd)
    (e : String) : Prop :=
  get_connector_config settings job.source_type = Except.error e ∨
  (∃ cfg, get_connector_config settings job.source_type = Except.ok cfg ∧
    get_connector job.source_type cfg = Except.error e) ∨
  (∃ cfg connector,
    get_connector_config settings job.source_type = Except.ok cfg ∧
    get_connector job.source_type cfg = Except.ok connector ∧
    theEnd = StreamEnd.raised e)

/-! Section: helper lemmas -/

theorem ujs_status (job : Job) (st : JobStatus) (now : Nat)
    (em ed : Option String) :
    (update_job_status job st now em ed).status = st := by
  simp only [update_job_status]
  split <;> split <;> split <;> rfl

theorem ujs_counters (job : Job) (st : JobStatus) (now : Nat)
    (em ed : Option String) :
    (update_job_status job st now em ed).totalItems = job.totalItems ∧
    (update_job_status job st now em ed).successfulItems =
      job.successfulItems ∧
    (update_job_status job st now em ed).failedItems = job.failedItems := by
  simp only [update_job_status]
  split <;> split <;> split <;> exact ⟨rfl, rfl, rfl⟩

theorem ujs_startedAt (job : Job) (st : JobStatus) (now : Nat)
    (em ed : Option String) :
    (update_job_status job st now em ed).startedAt =
      if st = JobStatus.running ∧ job.startedAt = none then some now
      else job.startedAt := by
  simp only [update_job_status]
  split <;> split <;> split <;> simp_all

theorem ujs_completedAt (job : Job) (st : JobStatus) (now : Nat)
    (em ed : Option String) :
    (update_job_status job st now em ed).completedAt =
      if st = JobStatus.success ∨ st = JobStatus.failed ∨
          st = JobStatus.partly then some now
      else job.completedAt := by
  simp only [update_job_status]
  split <;> split <;> split <;> simp_all

theorem ujs_error_truthy (job : Job) (st : JobStatus) (now : Nat)
    (em ed : Option String) (h : optStrTruthy em = true) :
    (update_job_status job st now em ed).errorMessage = em ∧
    (update_job_status job st now em ed).errorDetails = ed := by
  simp only [update_job_status]
  split <;> split <;> simp_all

theorem failMsg_ne_empty (e : String) :
    optStrTruthy (some ("Job execution failed: " ++ e)) = true := by
  have hlen : ("Job execution failed: " ++ e).length =
      "Job execution failed: ".length + e.length := String.length_append _ _
  have hpos : "Job execution failed: ".length = 22 := rfl
  simp only [optStrTruthy, Bool.not_eq_true']
  rw [beq_eq_false_iff_ne]
  intro hEq
  rw [hEq, hpos] at hlen
  have h0 : ("" : String).length = 0 := rfl
  rw [h0] at hlen
  omega

theorem runLoop_go (events : List (Except String Unit)) (t s f : Nat) :
    events.foldl
      (fun acc ev =>
        let total := acc.1 + 1
        match ev with
        | Except.ok _ => (total, acc.2.1 + 1, acc.2.2)
        | Except.error _ => (total, acc.2.1, acc.2.2 + 1))
      (t, s, f) =
    (t + events.length, s + countOk events, f + countErr events) := by
  induction events generalizing t s f with
  | nil => simp [countOk, countErr]
  | cons ev rest ih =>
    cases ev <;>
      simp only [List.foldl_cons, ih, countOk, countErr, List.countP_cons,
        isOkEv, List.length_cons] <;>
      simp <;> omega

theorem runLoop_spec (events : List (Except String Unit)) :
    runLoop events = (events.length, countOk events, countErr events) := by
  simpa using runLoop_go events 0 0 0

theorem execute_job_exhausted_eq (settings : Settings) (job : Job)
    (events : List (Except String Unit)) (now : Nat) (cfg : Config)
    (conn : Connector)
    (hc : get_connector_config settings job.source_type = Except.ok cfg)
    (hr : get_connector job.source_type cfg = Except.ok conn) :
    execute_job settings job events StreamEnd.exhausted now =
      update_job_status
        (update_job_counts
          (update_job_status job JobStatus.running now none none)
          events.length (countOk events) (countErr events))
        (if countErr events = 0 then JobStatus.success
         else if countOk events > 0 then JobStatus.partly
         else JobStatus.failed) now none none := by
  simp only [execute_job, hc, hr, runLoop_spec]

theorem execute_job_raises_eq (settings : Settings) (job : Job)
    (events : List (Except String Unit)) (theEnd : StreamEnd) (e : String)
    (now : Nat) (h : execRaises settings job theEnd e) :
    execute_job settings job events theEnd now =
      update_job_status
        (update_job_status job JobStatus.running now none none)
        JobStatus.failed now
        (some ("Job execution failed: " ++ e)) (some e) := by
  rcases h with h | ⟨cfg, hc, hr⟩ | ⟨cfg, conn, hc, hr, hEnd⟩
  · simp only [execute_job, h]
  · simp only [execute_job, hc, hr]
  · subst hEnd
    simp only [execute_job, hc, hr]

theorem exec_exhausted_fields (settings : Settings) (job : Job)
    (events : List (Except String Unit)) (now : Nat) (cfg : Config)
    (conn : Connector)
    (hc : get_connector_config settings job.source_type = Except.ok cfg)
    (hr : get_connector job.source_type cfg = Except.ok conn) :
    (execute_job settings job events StreamEnd.exhausted now).totalItems =
      events.length ∧
    (execute_job settings job events StreamEnd.exhausted now).successfulItems
      = countOk events ∧
    (execute_job settings job events StreamEnd.exhausted now).failedItems =
      countErr events ∧
    (execute_job settings job events StreamEnd.exhausted now).status =
      (if countErr events = 0 then JobStatus.success
       else if countOk events > 0 then JobStatus.partly
       else JobStatus.failed) := by
  rw [execute_job_exhausted_eq settings job events now cfg conn hc hr]
  refine ⟨?_, ?_, ?_, ujs_status _ _ _ _ _⟩
  · rw [(ujs_counters _ _ _ _ _).1]
    rfl
  · rw [(ujs_counters _ _ _ _ _).2.1]
    rfl
  · rw [(ujs_counters _ _ _ _ _).2.2]
    rfl

theorem validate_ok_true (c : Connector) (b : Bool)
    (h : c.validate_config = Except.ok b) : b = true := by
  unfold Connector.validate_config at h
  split at h <;> first
    | (split at h <;> simp_all)
    | (split at h <;> (try split at h) <;> simp_all)
    | simp_all

/-! Section: claim theorems -/

/-- C1: for every job whose execution completes normally (the connector
stream is fully consumed without an escaping exception), the final
persisted status is a pure function of the accumulated counters: SUCCESS
when `failed_items = 0`, PARTIAL when `failed_items > 0` and
`successful_items > 0`, FAILED when `failed_items > 0` and
`successful_items = 0`. -/
theorem exec_final_status_pure (settings : Settings) (job : Job)
    (events : List (Except String Unit)) (now : Nat) (cfg : Config)
    (conn : Connector)
    (hc : get_connector_config settings job.source_type = Except.ok cfg)
    (hr : get_connector job.source_type cfg = Except.ok conn) :
    ((execute_job settings job events StreamEnd.exhausted now).failedItems
        = 0 →
      (execute_job settings job events StreamEnd.exhausted now).status =
        JobStatus.success) ∧
    (0 < (execute_job settings job events StreamEnd.exhausted
          now).failedItems →
      0 < (execute_job settings job events StreamEnd.exhausted
          now).successfulItems →
      (execute_job settings job events StreamEnd.exhausted now).status =
        JobStatus.partly) ∧
    (0 < (execute_job settings job events StreamEnd.exhausted
          now).failedItems →
      (execute_job settings job events StreamEnd.exhausted
          now).successfulItems = 0 →
      (execute_job settings job events StreamEnd.exhausted now).status =
        JobStatus.failed) := by
  obtain ⟨ht, hs, hf, hst⟩ :=
    exec_exhausted_fields settings job events now cfg conn hc hr
  rw [hs, hf, hst]
  refine ⟨fun h0 => ?_, fun h1 h2 => ?_, fun h1 h2 => ?_⟩
  · rw [if_pos h0]
  · rw [if_neg (by omega), if_pos (by omega)]
  · rw [if_neg (by omega), if_neg (by omega)]

/-- C1 witness: a concrete normal completion (two stored items, one
failed persistence) ends PARTIAL. -/
theorem exec_final_status_pure_witness :
    (execute_job ⟨some "k", none⟩
        ⟨SourceType.opencorporates, JobStatus.pending, none, none, 0, 0, 0,
          none, none⟩
        [Except.ok (), Except.error "disk", Except.ok ()]
        StreamEnd.exhausted 5).status = JobStatus.partly := by
  have h := exec_final_status_pure ⟨some "k", none⟩
    ⟨SourceType.opencorporates, JobStatus.pending, none, none, 0, 0, 0,
      none, none⟩
    [Except.ok (), Except.error "disk", Except.ok ()] 5
    [("api_key", ConfigVal.str "k"),
     ("rate_limit_per_minute", ConfigVal.int 60),
     ("timeout_seconds", ConfigVal.int 30)]
    ⟨SourceType.opencorporates,
     [("api_key", ConfigVal.str "k"),
      ("rate_limit_per_minute", ConfigVal.int 60),
      ("timeout_seconds", ConfigVal.int 30)]⟩ rfl rfl
  exact h.2.1 (by decide) (by decide)

theorem length_eq_countOk_add_countErr (events : List (Except String Unit)) :
    events.length = countOk events + countErr events := by
  induction events with
  | nil => rfl
  | cons ev rest ih =>
    cases ev <;>
      simp [countOk, countErr, List.countP_cons, isOkEv] at * <;> omega

/-- C2: for every job execution, whichever terminal status it reaches,
the persisted counters satisfy
`total_items = successful_items + failed_items`, given that the job
satisfied it before the run (as a freshly created job with zeroed
counters does): on normal completion every fetched item is counted and
then attributed to exactly one of the two outcome counters, and on the
exception path the persisted counters are untouched. -/
theorem exec_counter_invariant (settings : Settings) (job : Job)
    (events : List (Except String Unit)) (theEnd : StreamEnd) (now : Nat)
    (hinv : job.totalItems = job.successfulItems + job.failedItems) :
    (execute_job settings job events theEnd now).totalItems =
      (execute_job settings job events theEnd now).successfulItems +
      (execute_job settings job events theEnd now).failedItems := by
  cases hc : get_connector_config settings job.source_type with
  | error e =>
    rw [execute_job_raises_eq settings job events theEnd e now (Or.inl hc)]
    obtain ⟨h1, h2, h3⟩ := ujs_counters
      (update_job_status job JobStatus.running now none none)
      JobStatus.failed now (some ("Job execution failed: " ++ e)) (some e)
    obtain ⟨g1, g2, g3⟩ := ujs_counters job JobStatus.running now none none
    rw [h1, h2, h3, g1, g2, g3]
    exact hinv
  | ok cfg =>
    cases hr : get_connector job.source_type cfg with
    | error e =>
      rw [execute_job_raises_eq settings job events theEnd e now
        (Or.inr (Or.inl ⟨cfg, hc, hr⟩))]
      obtain ⟨h1, h2, h3⟩ := ujs_counters
        (update_job_status job JobStatus.running now none none)
        JobStatus.failed now (some ("Job execution failed: " ++ e)) (some e)
      obtain ⟨g1, g2, g3⟩ := ujs_counters job JobStatus.running now none none
      rw [h1, h2, h3, g1, g2, g3]
      exact hinv
    | ok conn =>
      cases theEnd with
      | raised e =>
        rw [execute_job_raises_eq settings job events (StreamEnd.raised e) e
          now (Or.inr (Or.inr ⟨cfg, conn, hc, hr, rfl⟩))]
        obtain ⟨h1, h2, h3⟩ := ujs_counters
          (update_job_status job JobStatus.running now none none)
          JobStatus.failed now (some ("Job execution failed: " ++ e))
          (some e)
        obtain ⟨g1, g2, g3⟩ := ujs_counters job JobStatus.running now none
          none
        rw [h1, h2, h3, g1, g2, g3]
        exact hinv
      | exhausted =>
        obtain ⟨ht, hs, hf, _⟩ :=
          exec_exhausted_fields settings job events now cfg conn hc hr
        rw [ht, hs, hf]
        exact length_eq_countOk_add_countErr events

/-- C2 witness: a fresh job with zeroed counters run over a concrete
stream satisfies the invariant. -/
theorem exec_counter_invariant_witness :
    (execute_job ⟨some "k", none⟩
        ⟨SourceType.opencorporates, JobStatus.pending, none, none, 0, 0, 0,
          none, none⟩
        [Except.error "schema", Except.ok ()]
        StreamEnd.exhausted 3).totalItems =
      (execute_job ⟨some "k", none⟩
        ⟨SourceType.opencorporates, JobStatus.pending, none, none, 0, 0, 0,
          none, none⟩
        [Except.error "schema", Except.ok ()]
        StreamEnd.exhausted 3).successfulItems +
      (execute_job ⟨some "k", none⟩
        ⟨SourceType.opencorporates, JobStatus.pending, none, none, 0, 0, 0,
          none, none⟩
        [Except.error "schema", Except.ok ()]
        StreamEnd.exhausted 3).failedItems :=
  exec_counter_invariant ⟨some "k", none⟩
    ⟨SourceType.opencorporates, JobStatus.pending, none, none, 0, 0, 0,
      none, none⟩
    [Except.error "schema", Except.ok ()] StreamEnd.exhausted 3 rfl

/-- C3: a failure raised while persisting a single item increments
`failed_items` and does not abort the loop: with the stream
`pre ++ [failing item] ++ post`, every item of `post` is still counted
and attributed, and the job reaches the normal-completion status
computation (PARTIAL when anything succeeded, FAILED otherwise). -/
theorem exec_item_failure_isolated (settings : Settings) (job : Job)
    (pre post : List (Except String Unit)) (msg : String) (now : Nat)
    (cfg : Config) (conn : Connector)
    (hc : get_connector_config settings job.source_type = Except.ok cfg)
    (hr : get_connector job.source_type cfg = Except.ok conn) :
    (execute_job settings job (pre ++ Except.error msg :: post)
        StreamEnd.exhausted now).totalItems =
      pre.length + 1 + post.length ∧
    (execute_job settings job (pre ++ Except.error msg :: post)
        StreamEnd.exhausted now).successfulItems =
      countOk pre + countOk post ∧
    (execute_job settings job (pre ++ Except.error msg :: post)
        StreamEnd.exhausted now).failedItems =
      countErr pre + 1 + countErr post ∧
    (execute_job settings job (pre ++ Except.error msg :: post)
        StreamEnd.exhausted now).status =
      (if 0 < countOk pre + countOk post then JobStatus.partly
       else JobStatus.failed) := by
  obtain ⟨ht, hs, hf, hst⟩ := exec_exhausted_fields settings job
    (pre ++ Except.error msg :: post) now cfg conn hc hr
  have hOk : countOk (pre ++ Except.error msg :: post) =
      countOk pre + countOk post := by
    simp [countOk, List.countP_append, List.countP_cons, isOkEv]
  have hErr : countErr (pre ++ Except.error msg :: post) =
      countErr pre + 1 + countErr post := by
    simp [countErr, List.countP_append, List.countP_cons, isOkEv]
    omega
  refine ⟨?_, ?_, ?_, ?_⟩
  · rw [ht]
    simp
    omega
  · rw [hs, hOk]
  · rw [hf, hErr]
  · rw [hst, hOk, hErr, if_neg (by omega)]

/-- C3 witness: Scenario B — three items with the middle persistence
failing gives counters (3, 2, 1) and status PARTIAL. -/
theorem exec_item_failure_isolated_witness :
    (execute_job ⟨some "k", none⟩
        ⟨SourceType.opencorporates, JobStatus.pending, none, none, 0, 0, 0,
          none, none⟩
        ([Except.ok ()] ++ Except.error "io" :: [Except.ok ()])
        StreamEnd.exhausted 4).totalItems = 1 + 1 + 1 ∧
    (execute_job ⟨some "k", none⟩
        ⟨SourceType.opencorporates, JobStatus.pending, none, none, 0, 0, 0,
          none, none⟩
        ([Except.ok ()] ++ Except.error "io" :: [Except.ok ()])
        StreamEnd.exhausted 4).successfulItems = 2 ∧
    (execute_job ⟨some "k", none⟩
        ⟨SourceType.opencorporates, JobStatus.pending, none, none, 0, 0, 0,
          none, none⟩
        ([Except.ok ()] ++ Except.error "io" :: [Except.ok ()])
        StreamEnd.exhausted 4).failedItems = 1 ∧
    (execute_job ⟨some "k", none⟩
        ⟨SourceType.opencorporates, JobStatus.pending, none, none, 0, 0, 0,
          none, none⟩
        ([Except.ok ()] ++ Except.error "io" :: [Except.ok ()])
        StreamEnd.exhausted 4).status = JobStatus.partly := by
  have h := exec_item_failure_isolated ⟨some "k", none⟩
    ⟨SourceType.opencorporates, JobStatus.pending, none, none, 0, 0, 0,
      none, none⟩
    [Except.ok ()] [Except.ok ()] "io" 4
    [("api_key", ConfigVal.str "k"),
     ("rate_limit_per_minute", ConfigVal.int 60),
     ("timeout_seconds", ConfigVal.int 30)]
    ⟨SourceType.opencorporates,
     [("api_key", ConfigVal.str "k"),
      ("rate_limit_per_minute", ConfigVal.int 60),
      ("timeout_seconds", ConfigVal.int 30)]⟩ rfl rfl
  refine ⟨by simpa using h.1, by simpa using h.2.1, by simpa using h.2.2.1,
    ?_⟩
  have := h.2.2.2
  simpa using this

/-- C4: every uncaught exception after the transition to RUNNING
(missing configuration, unregistered source type, or a connector-raised
fetch error) leaves the job FAILED with `completed_at` stamped, the
error message `"Job execution failed: " ++ description`, the structured
error detail, and the persisted counters unchanged. -/
theorem exec_exception_marks_failed (settings : Settings) (job : Job)
    (events : List (Except String Unit)) (theEnd : StreamEnd) (e : String)
    (now : Nat) (h : execRaises settings job theEnd e) :
    (execute_job settings job events theEnd now).status =
      JobStatus.failed ∧
    (execute_job settings job events theEnd now).completedAt = some now ∧
    (execute_job settings job events theEnd now).errorMessage =
      some ("Job execution failed: " ++ e) ∧
    (execute_job settings job events theEnd now).errorDetails = some e ∧
    (execute_job settings job events theEnd now).totalItems =
      job.totalItems ∧
    (execute_job settings job events theEnd now).successfulItems =
      job.successfulItems ∧
    (execute_job settings job events theEnd now).failedItems =
      job.failedItems := by
  rw [execute_job_raises_eq settings job events theEnd e now h]
  obtain ⟨h1, h2, h3⟩ := ujs_counters
    (update_job_status job JobStatus.running now none none)
    JobStatus.failed now (some ("Job execution failed: " ++ e)) (some e)
  obtain ⟨g1, g2, g3⟩ := ujs_counters job JobStatus.running now none none
  obtain ⟨hm, hd⟩ := ujs_error_truthy
    (update_job_status job JobStatus.running now none none)
    JobStatus.failed now (some ("Job execution failed: " ++ e)) (some e)
    (failMsg_ne_empty e)
  refine ⟨ujs_status _ _ _ _ _, ?_, hm, hd, ?_, ?_, ?_⟩
  · rw [ujs_completedAt]
    simp
  · rw [h1, g1]
  · rw [h2, g2]
  · rw [h3, g3]

/-- C4 witness: Scenario C — a missing OpenCorporates API key makes the
run fail before any item, leaving FAILED with the configuration hint and
untouched zero counters. -/
theorem exec_exception_marks_failed_witness :
    (execute_job ⟨none, none⟩
        ⟨SourceType.opencorporates, JobStatus.pending, none, none, 0, 0, 0,
          none, none⟩ [] StreamEnd.exhausted 6).status =
      JobStatus.failed ∧
    (execute_job ⟨none, none⟩
        ⟨SourceType.opencorporates, JobStatus.pending, none, none, 0, 0, 0,
          none, none⟩ [] StreamEnd.exhausted 6).errorMessage =
      some ("Job execution failed: " ++
        "OpenCorporates API key not configured") := by
  have h := exec_exception_marks_failed ⟨none, none⟩
    ⟨SourceType.opencorporates, JobStatus.pending, none, none, 0, 0, 0,
      none, none⟩ [] StreamEnd.exhausted
    "OpenCorporates API key not configured" 6 (Or.inl rfl)
  exact ⟨h.1, h.2.2.1⟩

/-- C7 counterexample: the claim "once terminal, no core operation moves
the status" is false — `update_job_status` moves a job that already
holds the terminal status SUCCESS to RUNNING. -/
theorem terminal_status_moved_cex :
    JobStatus.isTerminal
      (Job.status ⟨SourceType.opencorporates, JobStatus.success, some 1,
        some 2, 3, 3, 0, none, none⟩) = true ∧
    (update_job_status
      ⟨SourceType.opencorporates, JobStatus.success, some 1, some 2, 3, 3,
        0, none, none⟩
      JobStatus.running 9 none none).status = JobStatus.running := by
  decide

/-- C7 amended: the core enforces no monotonicity guard —
`update_job_status` sets the requested status unconditionally, for every
job including one already holding a terminal status, so terminality is
preserved only as an assumption on callers, not by the core. -/
theorem update_status_unguarded (job : Job) (st : JobStatus) (now : Nat)
    (em ed : Option String) :
    (update_job_status job st now em ed).status = st := by
  simp only [update_job_status]
  split <;> split <;> split <;> rfl

/-- C8 counterexample: a transition into the terminal status CANCELLED
does not assign `completed_at` — the source's terminal list omits
CANCELLED, falsifying the claim for that status. -/
theorem cancelled_no_completedAt_cex :
    JobStatus.isTerminal JobStatus.cancelled = true ∧
    (update_job_status
      ⟨SourceType.news_api, JobStatus.running, some 1, none, 0, 0, 0, none,
        none⟩
      JobStatus.cancelled 7 none none).completedAt = none := by
  decide

/-- C8 amended: on every `update_job_status` call, `started_at` is
assigned exactly when the new status is RUNNING and `started_at` was
previously unset, and `completed_at` is assigned exactly when the new
status is SUCCESS, FAILED or PARTIAL — not on CANCELLED or any other
transition. -/
theorem update_status_timestamps (job : Job) (st : JobStatus) (now : Nat)
    (em ed : Option String) :
    (update_job_status job st now em ed).startedAt =
      (if st = JobStatus.running ∧ job.startedAt = none then some now
       else job.startedAt) ∧
    (update_job_status job st now em ed).completedAt =
      (if st = JobStatus.success ∨ st = JobStatus.failed ∨
          st = JobStatus.partly then some now
       else job.completedAt) :=
  ⟨ujs_startedAt job st now em ed, ujs_completedAt job st now em ed⟩

/-- C9 counterexample: with `rate_limit_per_minute` unset,
`get_rate_limit` does not return the claimed default of 60 requests per
minute — it returns `None` (meaning unlimited). -/
theorem rate_limit_no_default_cex :
    get_rate_limit ([] : Config) = none ∧
    get_rate_limit ([] : Config) ≠ some (ConfigVal.int 60) := by
  decide

/-- C9 amended: `get_timeout` returns the configured `timeout_seconds`
and defaults to 30 seconds when it is unset; `get_rate_limit` returns
the configured `rate_limit_per_minute` and returns `None` (no limit)
when it is unset — the connector applies no 60 req/min default. -/
theorem connector_policy_defaults (c : Config)
    (h1 : Config.get? c "timeout_seconds" = none)
    (h2 : Config.get? c "rate_limit_per_minute" = none) :
    get_timeout c = ConfigVal.int 30 ∧ get_rate_limit c = none := by
  rw [get_timeout, get_rate_limit, h1, h2]
  exact ⟨rfl, rfl⟩

/-- C9 witness: the empty configuration. -/
theorem connector_policy_defaults_witness :
    get_timeout ([] : Config) = ConfigVal.int 30 ∧
    get_rate_limit ([] : Config) = none :=
  connector_policy_defaults [] rfl rfl

/-- C10: every connector instance returned by
`ConnectorRegistry.get_connector` has already passed its own
`validate_config` (which returned `True` on the handed configuration),
and its source type was registered; unregistered types and invalid
configurations raise instead of returning a connector. -/
theorem get_connector_validated (st : SourceType) (cfg : Config)
    (conn : Connector) (h : get_connector st cfg = Except.ok conn) :
    conn.validate_config = Except.ok true ∧
    conn.source_type = st ∧ conn.config = cfg ∧
    st ∈ registeredSourceTypes := by
  unfold get_connector at h
  by_cases hreg : st ∈ registeredSourceTypes
  · rw [if_pos hreg] at h
    cases hv : Connector.validate_config ⟨st, cfg⟩ with
    | error e =>
      simp only [hv] at h
      cases h
    | ok b =>
      simp only [hv] at h
      obtain rfl : (⟨st, cfg⟩ : Connector) = conn := by
        injection h
      have hb := validate_ok_true ⟨st, cfg⟩ b hv
      subst hb
      exact ⟨hv, rfl, rfl, hreg⟩
  · rw [if_neg hreg] at h
    cases h

/-- C10 witness: a registered source type with a truthy API key yields a
validated connector. -/
theorem get_connector_validated_witness :
    Connector.validate_config
      ⟨SourceType.opencorporates, [("api_key", ConfigVal.str "k")]⟩ =
      Except.ok true ∧
    (⟨SourceType.opencorporates,
      [("api_key", ConfigVal.str "k")]⟩ : Connector).source_type =
      SourceType.opencorporates ∧
    (⟨SourceType.opencorporates,
      [("api_key", ConfigVal.str "k")]⟩ : Connector).config =
      [("api_key", ConfigVal.str "k")] ∧
    SourceType.opencorporates ∈ registeredSourceTypes :=
  get_connector_validated SourceType.opencorporates
    [("api_key", ConfigVal.str "k")]
    ⟨SourceType.opencorporates, [("api_key", ConfigVal.str "k")]⟩ rfl

theorem sha256hex_abc :
    sha256hex [97, 98, 99] =
      "ba7816bf8f01cfea414140de5dae2223b00361a396177a9cb410ff61f20015ad" := by
  decide

theorem hexDigit_mem (n : Nat) : hexDigit n ∈ hexTable := by
  unfold hexDigit
  have h : n % 16 < hexTable.length := by
    have h16 : n % 16 < 16 := Nat.mod_lt _ (by norm_num)
    simpa [hexTable] using h16
  rw [List.getD_eq_getElem _ _ h]
  exact List.getElem_mem h

theorem sha256hex_lowercase (msg : List Nat) :
    ∀ c ∈ (sha256hex msg).data, c ∈ hexTable := by
  intro c hc
  have hdata : (sha256hex msg).data =
      ((sha256 msg).map byteToHex).flatten := rfl
  rw [hdata, List.mem_flatten] at hc
  obtain ⟨pair, hp, hcp⟩ := hc
  rw [List.mem_map] at hp
  obtain ⟨b, _, rfl⟩ := hp
  simp only [byteToHex, List.mem_cons, List.not_mem_nil, or_false] at hcp
  rcases hcp with rfl | rfl <;> exact hexDigit_mem _

/-- C5: checksums are deterministic and verifiable — `store_evidence`
returns the lowercase-hex SHA-256 of exactly the stored bytes (the
checksum does not depend on the object key, so identical bytes under two
keys yield identical checksums, and the bytes retrievable at the written
key are the hashed ones), and `verify_checksum key expected` returns
true iff the bytes currently retrievable at `key` hash to `expected`
(retrieval failure counts as false). -/
theorem checksum_deterministic (st : ObjectStore)
    (k1 k2 key expected : String) (content : List Nat) :
    (store_evidence st k1 content).2.1 =
      (store_evidence st k2 content).2.1 ∧
    (store_evidence st k1 content).2.1 = sha256hex content ∧
    (store_evidence st k1 content).1.getObject k1 = some content ∧
    (∀ c ∈ ((store_evidence st k1 content).2.1).data, c ∈ hexTable) ∧
    (verify_checksum st key expected = true ↔
      ∃ bytes, st.getObject key = some bytes ∧
        sha256hex bytes = expected) := by
  refine ⟨rfl, rfl, ?_, sha256hex_lowercase content, ?_⟩
  · simp [store_evidence, ObjectStore.putObject, ObjectStore.getObject,
      List.lookup]
  · unfold verify_checksum
    cases hget : st.getObject key with
    | none => simp
    | some bytes => simp

/-- C5 witness: verification succeeds on a store holding bytes whose
hash is the expected checksum. -/
theorem checksum_deterministic_witness :
    verify_checksum [("k", [1, 2])] "k" (sha256hex [1, 2]) = true :=
  (checksum_deterministic [("k", [1, 2])] "a" "b" "k" (sha256hex [1, 2])
    [1, 2]).2.2.2.2.mpr ⟨[1, 2], rfl, rfl⟩

theorem splitOnChar_no_sep (sep : Char) (xs : List Char) (h : sep ∉ xs) :
    splitOnChar sep xs = [xs] := by
  induction xs with
  | nil => rfl
  | cons c xs ih =>
    have hc : ¬(c = sep) := by
      rintro rfl
      exact h (List.mem_cons_self _ _)
    have hx : sep ∉ xs := fun hm => h (List.mem_cons_of_mem _ hm)
    simp only [splitOnChar, ih hx, if_neg hc]

theorem splitOnChar_append (sep : Char) (xs ys : List Char)
    (h : sep ∉ xs) :
    splitOnChar sep (xs ++ sep :: ys) = xs :: splitOnChar sep ys := by
  induction xs with
  | nil => simp [splitOnChar]
  | cons c xs ih =>
    have hc : ¬(c = sep) := by
      rintro rfl
      exact h (List.mem_cons_self _ _)
    have hx : sep ∉ xs := fun hm => h (List.mem_cons_of_mem _ hm)
    simp only [List.cons_append, splitOnChar, List.append_eq, ih hx,
      if_neg hc]

theorem charVal_digitChar (d : Nat) (h : d < 10) :
    charVal (digitChar d) = d := by
  have hall : ∀ m, m < 10 → charVal (digitChar m) = m := by decide
  exact hall d h

theorem digitChar_mem (d : Nat) : digitChar d ∈ digitTable := by
  unfold digitChar
  have h : d % 10 < digitTable.length := by
    have h10 : d % 10 < 10 := Nat.mod_lt _ (by norm_num)
    simpa [digitTable] using h10
  rw [List.getD_eq_getElem _ _ h]
  exact List.getElem_mem h

theorem natToChars_mem (n : Nat) :
    ∀ c ∈ natToChars n, c ∈ digitTable := by
  intro c hc
  unfold natToChars at hc
  split at hc
  · simp only [List.mem_singleton] at hc
    subst hc
    decide
  · rw [List.mem_map] at hc
    obtain ⟨d, _, rfl⟩ := hc
    exact digitChar_mem d

theorem pad2_mem (n : Nat) : ∀ c ∈ pad2 n, c ∈ digitTable := by
  intro c hc
  unfold pad2 at hc
  split at hc
  · rcases List.mem_cons.mp hc with rfl | h
    · decide
    · exact natToChars_mem n c h
  · exact natToChars_mem n c hc

theorem digitTable_sep_free :
    ∀ c ∈ digitTable, ¬(c = '/') ∧ ¬(c = '.') := by
  decide

theorem parseNat_natToChars (n : Nat) :
    parseNatChars (natToChars n) = n := by
  unfold natToChars
  split
  · rename_i h
    subst h
    decide
  · unfold parseNatChars
    rw [List.map_map]
    have hmap : (Nat.digits 10 n).reverse.map (charVal ∘ digitChar) =
        (Nat.digits 10 n).reverse := by
      have hcg := List.map_congr_left (l := (Nat.digits 10 n).reverse)
        (f := charVal ∘ digitChar) (g := id) ?_
      · simpa using hcg
      · intro d hd
        have hdm : d ∈ Nat.digits 10 n := List.mem_reverse.mp hd
        have hlt : d < 10 := Nat.digits_lt_base (by norm_num) hdm
        simpa using charVal_digitChar d hlt
    rw [hmap, List.reverse_reverse, Nat.ofDigits_digits]

theorem parseNat_pad2 (n : Nat) : parseNatChars (pad2 n) = n := by
  unfold pad2
  split
  · show parseNatChars ('0' :: natToChars n) = n
    unfold parseNatChars
    rw [List.map_cons, List.reverse_cons, Nat.ofDigits_append]
    have h0 : charVal '0' = 0 := rfl
    rw [h0]
    simp only [Nat.ofDigits_singleton, Nat.mul_zero, Nat.add_zero]
    exact parseNat_natToChars n
  · exact parseNat_natToChars n

theorem parse_object_key_of_split (key : String)
    (st ys ms ds job file eid ext : List Char)
    (hsplit : splitOnChar '/' key.data =
      ["evidence".data, st, ys, ms, ds, job, file])
    (hdot : splitOnChar '.' file = [eid, ext]) :
    parse_object_key key =
      some (⟨st⟩,
        (parseNatChars ys, parseNatChars ms, parseNatChars ds),
        ⟨job⟩, ⟨eid⟩, ⟨ext⟩) := by
  simp only [parse_object_key, hsplit, hdot]
  simp

/-- C6: `generate_object_key` returns exactly
`evidence/{source_type}/{yyyy}/{mm}/{dd}/{job_id}/{evidence_id}.{ext}`
for the current UTC date (passed in as `(y, m, d)`), and this format is
parseable back into its five components whenever the interpolated
strings do not themselves contain the separators (true of the source's
enum values, UUIDs and the fixed `json` extension). -/
theorem object_key_roundtrip (source_type job_id evidence_id extension :
    String) (y m d : Nat)
    (hs : '/' ∉ source_type.data)
    (hj : '/' ∉ job_id.data)
    (he1 : '/' ∉ evidence_id.data) (he2 : '.' ∉ evidence_id.data)
    (hx1 : '/' ∉ extension.data) (hx2 : '.' ∉ extension.data) :
    parse_object_key
      (generate_object_key source_type y m d job_id evidence_id
        extension) =
      some (source_type, (y, m, d), job_id, evidence_id, extension) := by
  have hy : '/' ∉ natToChars y := fun hm =>
    (digitTable_sep_free '/' (natToChars_mem y '/' hm)).1 rfl
  have hm2 : '/' ∉ pad2 m := fun hm =>
    (digitTable_sep_free '/' (pad2_mem m '/' hm)).1 rfl
  have hd2 : '/' ∉ pad2 d := fun hm =>
    (digitTable_sep_free '/' (pad2_mem d '/' hm)).1 rfl
  have hev : '/' ∉ "evidence".data := by decide
  have hfile : '/' ∉ evidence_id.data ++ '.' :: extension.data := by
    intro hm
    rcases List.mem_append.mp hm with hm | hm
    · exact he1 hm
    · rcases List.mem_cons.mp hm with hm | hm
      · exact absurd hm (by decide)
      · exact hx1 hm
  have hkey : (generate_object_key source_type y m d job_id evidence_id
      extension).data =
      "evidence".data ++ '/' :: (source_type.data ++ '/' ::
        (natToChars y ++ '/' :: (pad2 m ++ '/' :: (pad2 d ++ '/' ::
        (job_id.data ++ '/' :: (evidence_id.data ++ '.' ::
        extension.data)))))) := rfl
  have hsplit : splitOnChar '/' (generate_object_key source_type y m d
      job_id evidence_id extension).data =
      ["evidence".data, source_type.data, natToChars y, pad2 m, pad2 d,
        job_id.data, evidence_id.data ++ '.' :: extension.data] := by
    rw [hkey, splitOnChar_append '/' _ _ hev,
      splitOnChar_append '/' _ _ hs, splitOnChar_append '/' _ _ hy,
      splitOnChar_append '/' _ _ hm2, splitOnChar_append '/' _ _ hd2,
      splitOnChar_append '/' _ _ hj, splitOnChar_no_sep '/' _ hfile]
  have hdot : splitOnChar '.'
      (evidence_id.data ++ '.' :: extension.data) =
      [evidence_id.data, extension.data] := by
    rw [splitOnChar_append '.' _ _ he2,
      splitOnChar_no_sep '.' _ hx2]
  rw [parse_object_key_of_split _ _ _ _ _ _ _ _ _ hsplit hdot,
    parseNat_natToChars y, parseNat_pad2 m, parseNat_pad2 d]

/-- C6 witness: a concrete key
`evidence/news_api/2025/03/07/5f1b/
9c2d.json` parses back into its five components. -/
theorem object_key_roundtrip_witness :
    parse_object_key
      (generate_object_key "news_api" 2025 3 7 "5f1b" "9c2d" "json") =
      some ("news_api", (2025, 3, 7), "5f1b", "9c2d", "json") :=
  object_key_roundtrip "news_api" "5f1b" "9c2d" "json" 2025 3 7
    (by decide) (by decide) (by decide) (by decide) (by decide)
    (by decide)

end Swift
